import Mathlib

/-!
Verification development for the puppeteer-navigator activity-aware
action-sequencing engine (src/puppeteer-navigator.ts).

The monitor state, the settle predicate, the poller, the post-action wait
routine and the orchestrator actions are shallowly embedded as executable
Lean functions translated from the TypeScript source.  Driver calls
(element queries, click dispatch, waits) are modelled as abstract effects
or environment functions, and wall-clock time as explicit `Nat` readings
supplied per poll tick.
-/

namespace PupNav

/-- State owned by one Activity Monitor instance (`startActivityMonitor`):
the closure variables `pendingRequests`, `lastRequestActivityTime` and
`lastDomLoadedTime`.  `pendingRequests` is an `Int` because the source
uses a plain JS number that `--pendingRequests` can drive below zero. -/
structure MonState where
  pendingRequests : Int
  lastRequestActivityTime : Nat
  lastDomLoadedTime : Nat
deriving DecidableEq, Repr

/-- Lifecycle events delivered to the Activity Monitor.  Request completion
and failure events carry the `Date.now()` reading taken in the handler. -/
inductive ActivityEvent where
  | requestStarted
  | requestFinished (now : Nat)
  | requestFailed (now : Nat)
  | domContentLoaded (now : Nat)
deriving DecidableEq, Repr

/-- Event handlers of `startActivityMonitor`: `onRequestStarted` increments
the pending count; `onRequestFinished` (registered for both
`requestfinished` and `requestfailed`) decrements it and records the
activity time; `onDomContentLoaded` records the load time. -/
def applyEvent (s : MonState) : ActivityEvent → MonState
  | .requestStarted => { s with pendingRequests := s.pendingRequests + 1 }
  | .requestFinished now =>
      { s with pendingRequests := s.pendingRequests - 1, lastRequestActivityTime := now }
  | .requestFailed now =>
      { s with pendingRequests := s.pendingRequests - 1, lastRequestActivityTime := now }
  | .domContentLoaded now => { s with lastDomLoadedTime := now }

/-- Initial monitor state: all three closure variables start at 0. -/
def initialMonState : MonState := ⟨0, 0, 0⟩

/-- Replay of an event stream against a fresh monitor. -/
def replay (events : List ActivityEvent) : MonState :=
  events.foldl applyEvent initialMonState

/-- The monitor's `pendingRequestCount()` accessor. -/
def pendingRequestCount (s : MonState) : Int := s.pendingRequests

/-- Number of request-started events in a stream. -/
def countStarted : List ActivityEvent → Nat
  | [] => 0
  | .requestStarted :: tl => countStarted tl + 1
  | _ :: tl => countStarted tl

/-- Number of request-finished events in a stream. -/
def countFinished : List ActivityEvent → Nat
  | [] => 0
  | .requestFinished _ :: tl => countFinished tl + 1
  | _ :: tl => countFinished tl

/-- Number of request-failed events in a stream. -/
def countFailed : List ActivityEvent → Nat
  | [] => 0
  | .requestFailed _ :: tl => countFailed tl + 1
  | _ :: tl => countFailed tl

/-- One evaluation of the settle predicate inside `waitForPendingActivity`,
translated line by line from the source: an early `false` when
`pendingRequests > 0`; then `if (lastDomLoadedTime) idleTime = idleLoadTime || idleTime`
(JS number truthiness: nonzero), which reassigns the `idleTime` parameter;
then `now - lastRequestActivityTime > idleTime`.  Returns the settle
verdict together with the (possibly reassigned) `idleTime` parameter. -/
def settleTick (idleTime idleLoadTime : Nat) (s : MonState) (now : Nat) : Bool × Nat :=
  if s.pendingRequests > 0 then (false, idleTime)
  else
    let idleTime' := if s.lastDomLoadedTime ≠ 0 then
        (if idleLoadTime ≠ 0 then idleLoadTime else idleTime)
      else idleTime
    (decide ((now : Int) - (s.lastRequestActivityTime : Int) > (idleTime' : Int)), idleTime')

/-- Settle predicate as claim C2 words it: settled iff the pending count is
exactly 0 and `now - lastRequestActivityTime` strictly exceeds the
effective idle time, taken to be `idleLoadTime` whenever
`lastDomLoadedTime ≠ 0`.  Stated for comparison with `settleTick`. -/
def settleTickAsClaimed (idleTime idleLoadTime : Nat) (s : MonState) (now : Nat) : Bool :=
  decide (s.pendingRequests = 0) &&
    decide ((now : Int) - (s.lastRequestActivityTime : Int)
      > (if s.lastDomLoadedTime ≠ 0 then (idleLoadTime : Int) else (idleTime : Int)))

/-- The generic poller `pollUntilTrueOrTimeout(interval, timeout, pollFn)`.
Tick `k` happens at wall-clock time `elapsed k` past the start; the body
first evaluates `pollFn` and resolves on `true`, otherwise resolves when
the elapsed time strictly exceeds `timeout`, otherwise re-arms.  The
predicate threads a state `σ` (the monitor's predicate mutates its
captured `idleTime`), and `fuel` bounds the recursion; theorems below show
the timeout branch fires well within the supplied fuel. -/
def pollUntilTrueOrTimeout {σ : Type} (timeout : Nat) (elapsed : Nat → Nat)
    (pollFn : Nat → σ → Bool × σ) : Nat → Nat → σ → Option (Nat × σ)
  | 0, _, _ => none
  | fuel + 1, k, s =>
    let e := elapsed k
    let r := pollFn k s
    if r.1 then some (k, r.2)
    else if timeout < e then some (k, r.2)
    else pollUntilTrueOrTimeout timeout elapsed pollFn fuel (k + 1) r.2

/-- The monitor's poll predicate at tick `k`: the settle predicate read
against the monitor state and clock reading observed at that tick,
threading the mutable `idleTime` parameter. -/
def settleStep (idleLoadTime : Nat) (mon : Nat → MonState) (clock : Nat → Nat)
    (k : Nat) (idleTime : Nat) : Bool × Nat :=
  settleTick idleTime idleLoadTime (mon k) (clock k)

/-- `waitForPendingActivity(idleTime, idleLoadTime)`: polls every 50ms with
a 30000ms ceiling, then executes `lastDomLoadedTime = 0` and resolves.
`mon k` / `clock k` are the monitor state and `Date.now()` observed at
tick `k`; the result is the exit tick together with the monitor state
right after the call (the source's reset applied). -/
def waitForPendingActivity (idleTime idleLoadTime : Nat) (mon : Nat → MonState)
    (clock : Nat → Nat) (start fuel : Nat) : Option (Nat × MonState) :=
  match pollUntilTrueOrTimeout 30000 (fun k => clock k - start)
      (settleStep idleLoadTime mon clock) fuel 0 idleTime with
  | some (k, _) => some (k, { mon k with lastDomLoadedTime := 0 })
  | none => none

/-- The orchestrator's options record with the defaults of
`_makePageNavigator`.  Durations are in milliseconds. -/
structure NavigatorOptions where
  waitUntilVisible : Bool
  waitOnSelectors : Bool
  waitAfterAction : Nat
  waitIdleTime : Nat
  waitIdleLoadTime : Nat
  useSimulatedClicks : Bool
deriving DecidableEq, Repr

/-- Default options object built at the top of `_makePageNavigator`. -/
def defaultOptions : NavigatorOptions :=
  { waitUntilVisible := true, waitOnSelectors := true, waitAfterAction := 0,
    waitIdleTime := 0, waitIdleLoadTime := 0, useSimulatedClicks := true }

/-- A partial `NavigatorOptions` argument: absent fields are `none`
(missing keys of the JS object literal). -/
structure OptionsPatch where
  waitUntilVisible : Option Bool
  waitOnSelectors : Option Bool
  waitAfterAction : Option Nat
  waitIdleTime : Option Nat
  waitIdleLoadTime : Option Nat
  useSimulatedClicks : Option Bool
deriving DecidableEq, Repr

/-- `Object.assign(options, customOptions)`: every field present in the
patch overrides the base, absent fields are left unchanged. -/
def assignOptions (o : NavigatorOptions) (p : OptionsPatch) : NavigatorOptions :=
  { waitUntilVisible := p.waitUntilVisible.getD o.waitUntilVisible,
    waitOnSelectors := p.waitOnSelectors.getD o.waitOnSelectors,
    waitAfterAction := p.waitAfterAction.getD o.waitAfterAction,
    waitIdleTime := p.waitIdleTime.getD o.waitIdleTime,
    waitIdleLoadTime := p.waitIdleLoadTime.getD o.waitIdleLoadTime,
    useSimulatedClicks := p.useSimulatedClicks.getD o.useSimulatedClicks }

/-- View of a full options object passed where a patch is expected (the
parent's `options` handed to `_makePageNavigator` by `frameNavigator`):
every field is present. -/
def fullPatch (o : NavigatorOptions) : OptionsPatch :=
  ⟨some o.waitUntilVisible, some o.waitOnSelectors, some o.waitAfterAction,
   some o.waitIdleTime, some o.waitIdleLoadTime, some o.useSimulatedClicks⟩

/-- Abstract waiting effects performed by the post-action routine. -/
inductive WaitEffect where
  | settleActivity (idleTime idleLoadTime : Nat)
  | fixedWait (ms : Nat)
deriving DecidableEq, Repr

/-- The post-action routine `waitAfter`, translated from the source:
`if (options.waitIdleTime || options.waitIdleLoadTime) waitActivity(...)`;
then `if (options.waitAfterAction) { wait(waitAfterAction); if (idle cfg) waitActivity(...) }`.
JS number truthiness: a field is truthy iff nonzero. -/
def waitAfter (o : NavigatorOptions) : List WaitEffect :=
  (if o.waitIdleTime ≠ 0 ∨ o.waitIdleLoadTime ≠ 0 then
      [WaitEffect.settleActivity o.waitIdleTime o.waitIdleLoadTime]
    else []) ++
  (if o.waitAfterAction ≠ 0 then
      [WaitEffect.fixedWait o.waitAfterAction] ++
        (if o.waitIdleTime ≠ 0 ∨ o.waitIdleLoadTime ≠ 0 then
            [WaitEffect.settleActivity o.waitIdleTime o.waitIdleLoadTime]
          else [])
    else [])

/-- Driver-native element handle (opaque to the orchestrator). -/
structure Handle where
  id : Nat
deriving DecidableEq, Repr

/-- The frame environment consumed by the query helpers: `frame.$x`,
`frame.$` and `frame.$$`. -/
structure FrameEnv where
  xpathQuery : String → List Handle
  cssQuery : String → Option Handle
  cssQueryAll : String → List Handle

/-- The test `selector.startsWith('//')`, stated on the character list so
that it evaluates by kernel reduction. -/
def isXPathSel (s : String) : Bool :=
  decide (s.data.take 2 = ['/', '/'])

/-- `queryElementHandle`: a non-string argument is returned unchanged; a
string starting with `//` is resolved as XPath taking the first result
(`(await frame.$x(selector))[0]`, `undefined` when empty); otherwise
resolved with `frame.$(selector)`. -/
def queryElementHandle (f : FrameEnv) : Sum String Handle → Option Handle
  | .inr h => some h
  | .inl s => if isXPathSel s then (f.xpathQuery s).head? else f.cssQuery s

/-- `queryElementHandles` exactly as written in the source: starts from an
empty array, concatenates the XPath results when the selector starts with
`//`, and then unconditionally concatenates the `frame.$$` results for the
same string. -/
def queryElementHandles (f : FrameEnv) (s : String) : List Handle :=
  (if isXPathSel s then f.xpathQuery s else []) ++ f.cssQueryAll s

/-- Modelled from the spec: resolution dispatches exclusively on the `//`
prefix, returning the handles of exactly the XPath matches for an XPath
expression and exactly the CSS matches otherwise. -/
def queryElementHandlesAsSpec (f : FrameEnv) (s : String) : List Handle :=
  if isXPathSel s then f.xpathQuery s else f.cssQueryAll s

/-- How a click is delivered. -/
inductive ClickKind where
  | simulated
  | pointer
deriving DecidableEq, Repr

/-- Observable effects of an orchestrator action. -/
inductive ActionEffect where
  | waitForSelector (s : String)
  | dispatchClick (kind : ClickKind) (h : Handle)
  | post (w : WaitEffect)
deriving DecidableEq, Repr

/-- Errors raised by orchestrator actions. -/
inductive NavError where
  | elementNotFound (selector : String)
  | frameNotFound (selector : String)
deriving DecidableEq, Repr

/-- Text used in the thrown `Error` message. -/
def selText : Sum String Handle → String
  | .inl s => s
  | .inr _ => "[object Object]"

/-- Pre-wait of `click`: performed iff `options.waitOnSelectors` holds and
the argument is a string (`typeof selector === 'string'`). -/
def clickPre (o : NavigatorOptions) : Sum String Handle → List ActionEffect
  | .inl s => if o.waitOnSelectors then [ActionEffect.waitForSelector s] else []
  | .inr _ => []

/-- The `click` action: pre-wait, resolve the target, throw
`Element not found` when resolution yields nothing (no further effect),
otherwise dispatch either a synthetic in-page click or a driver pointer
click and run the post-action wait.  Result: trace of effects and the
error, if any. -/
def click (f : FrameEnv) (o : NavigatorOptions) (sel : Sum String Handle) :
    List ActionEffect × Option NavError :=
  match queryElementHandle f sel with
  | none => (clickPre o sel, some (NavError.elementNotFound (selText sel)))
  | some h =>
      (clickPre o sel
        ++ [ActionEffect.dispatchClick
              (if o.useSimulatedClicks then ClickKind.simulated else ClickKind.pointer) h]
        ++ (waitAfter o).map ActionEffect.post,
       none)

/-- An `<option>` child of the list element: its `label` and `value`
attributes and `selected` flag. -/
structure OptionElement where
  label : String
  value : String
  selected : Bool
deriving DecidableEq, Repr

/-- The `<select>` element: its children in document order. -/
structure SelectElement where
  children : List OptionElement
deriving DecidableEq, Repr

/-- A dispatched DOM event with its `bubbles` flag. -/
structure ChangeEvent where
  bubbles : Bool
deriving DecidableEq, Repr

/-- The `{value?, label?}` argument of `select`. -/
structure SelectOptionArg where
  value : Option String
  label : Option String
deriving DecidableEq, Repr

/-- The regex replace `.replace(/[^\x00-\x7F]/g, '')`: removes every
character whose code point exceeds 0x7F (keeps all of ASCII, control
characters included). -/
def stripNonAscii (s : String) : String :=
  String.mk (s.data.filter fun c => decide (c.toNat ≤ 0x7F))

/-- JS truthiness of `selectOption.label`: present and non-empty. -/
def labelTruthy (arg : SelectOptionArg) : Bool :=
  match arg.label with
  | some s => decide (s ≠ "")
  | none => false

/-- Marks the child at index `i` selected, leaving the others unchanged. -/
def markSelected (el : SelectElement) (i : Nat) : SelectElement :=
  ⟨el.children.mapIdx fun j o => if j = i then { o with selected := true } else o⟩

/-- The in-page routine of `select`, translated from the source: when
`selectOption.label` is truthy, find the first child whose stripped label
strictly equals it, otherwise the first child whose stripped value
strictly equals `selectOption.value` (`=== undefined` never holds); on a
match mark it selected and dispatch one `change` event with
`bubbles: true` on the list element; without a match the in-page
assignment to `undefined.selected` fails (`none`). -/
def selectInPage (el : SelectElement) (arg : SelectOptionArg) :
    Option (SelectElement × List ChangeEvent) :=
  let found :=
    if labelTruthy arg then
      el.children.findIdx? fun o => decide (some (stripNonAscii o.label) = arg.label)
    else
      el.children.findIdx? fun o => decide (some (stripNonAscii o.value) = arg.value)
  match found with
  | none => none
  | some i => some (markSelected el i, [⟨true⟩])

/-- The in-page routine as claim C7 words it: the matched child is the one
whose stripped label equals the requested label whenever a label is
supplied, and only when no label is supplied the one whose stripped value
equals the requested value.  Stated for comparison with `selectInPage`. -/
def selectAsClaimed (el : SelectElement) (arg : SelectOptionArg) :
    Option (SelectElement × List ChangeEvent) :=
  let pred : OptionElement → Bool := fun o =>
    match arg.label with
    | some s => decide (stripNonAscii o.label = s)
    | none =>
        match arg.value with
        | some v => decide (stripNonAscii o.value = v)
        | none => false
  match el.children.findIdx? pred with
  | none => none
  | some i => some (markSelected el i, [⟨true⟩])

/-- The in-page routine as the amended claim words it: a non-empty
supplied label takes precedence; an empty-string or absent label falls
back to value matching; on a match the first such child is marked selected
and exactly one bubbling change event is dispatched on the list element. -/
def selectAsAmended (el : SelectElement) (arg : SelectOptionArg) :
    Option (SelectElement × List ChangeEvent) :=
  let pred : OptionElement → Bool := fun o =>
    match arg.label with
    | some s =>
        if s = "" then
          match arg.value with
          | some v => decide (stripNonAscii o.value = v)
          | none => false
        else decide (stripNonAscii o.label = s)
    | none =>
        match arg.value with
        | some v => decide (stripNonAscii o.value = v)
        | none => false
  match el.children.findIdx? pred with
  | none => none
  | some i => some (markSelected el i, [⟨true⟩])

/-- Heap of options objects: orchestrators reference their mutable options
record by a store reference; `nextRef` is the next fresh reference. -/
structure NavWorld where
  store : Nat → NavigatorOptions
  nextRef : Nat

/-- An orchestrator instance: the shared Activity Monitor it was handed,
the frame it is bound to, and the reference to its own options object. -/
structure OrchRef where
  monitorId : Nat
  frameId : Nat
  optsRef : Nat
deriving DecidableEq, Repr

/-- `_makePageNavigator`: allocates a fresh options object initialized to
the defaults, then `Object.assign`s the custom options over it. -/
def makePageNavigatorIn (w : NavWorld) (monitorId frameId : Nat) (custom : OptionsPatch) :
    NavWorld × OrchRef :=
  (⟨fun r => if r = w.nextRef then assignOptions defaultOptions custom else w.store r,
    w.nextRef + 1⟩,
   ⟨monitorId, frameId, w.nextRef⟩)

/-- `frameNavigator`: builds the child orchestrator via
`_makePageNavigator(page, frame, requestMonitor, options)`, passing the
same monitor and the parent's current options object, whose fields are
copied into the child's fresh record. -/
def frameNavigatorIn (w : NavWorld) (parent : OrchRef) (childFrame : Nat) :
    NavWorld × OrchRef :=
  makePageNavigatorIn w parent.monitorId childFrame (fullPatch (w.store parent.optsRef))

/-- `updateOptions` on one orchestrator: `Object.assign` onto that
orchestrator's own options object only. -/
def updateOptionsIn (w : NavWorld) (n : OrchRef) (p : OptionsPatch) : NavWorld :=
  { w with store := fun r => if r = n.optsRef then assignOptions (w.store n.optsRef) p
      else w.store r }

/-- Frame used in concrete evaluations: the XPath engine finds handle 1
for the expression `//div` and the CSS engine finds handle 2 for the same
string. -/
def frameC9 : FrameEnv :=
  ⟨fun s => if s = "//div" then [⟨1⟩] else [],
   fun _ => none,
   fun s => if s = "//div" then [⟨2⟩] else []⟩

/-- Frame with no elements at all. -/
def frameMissing : FrameEnv := ⟨fun _ => [], fun _ => none, fun _ => []⟩

/-- Monitor history with no activity at all. -/
def monQuiet : Nat → MonState := fun _ => ⟨0, 0, 0⟩

/-- Monitor history with one request pending forever. -/
def monBusy : Nat → MonState := fun _ => ⟨1, 0, 0⟩

/-- Ideal poll schedule: tick `k` fires exactly `(k+1) * 50` ms after the
call. -/
def clockIdeal : Nat → Nat := fun k => (k + 1) * 50

/-- Heap with one allocated options object holding the defaults. -/
def worldOne : NavWorld := ⟨fun _ => defaultOptions, 1⟩

/-- Parent orchestrator bound to reference 0 of `worldOne`. -/
def parentZero : OrchRef := ⟨0, 0, 0⟩

/-- Patch setting only `waitAfterAction` to 500. -/
def patch500 : OptionsPatch := ⟨none, none, some 500, none, none, none⟩

lemma assignOptions_fullPatch (base o : NavigatorOptions) :
    assignOptions base (fullPatch o) = o := rfl

lemma replay_pending_aux (es : List ActivityEvent) : ∀ s : MonState,
    (es.foldl applyEvent s).pendingRequests
      = s.pendingRequests + (countStarted es : Int) - (countFinished es : Int)
          - (countFailed es : Int) := by
  induction es with
  | nil => intro s; simp [countStarted, countFinished, countFailed]
  | cons e tl ih =>
    intro s
    cases e <;>
      simp only [List.foldl_cons, applyEvent, countStarted, countFinished, countFailed, ih] <;>
      push_cast <;> ring

/-- C1 counterexample: replaying a single request-finished event yields a
reported pending count of -1; the code has no clamp, so the count is
reported negative. -/
theorem pendingCount_negative_cex :
    pendingRequestCount (replay [ActivityEvent.requestFinished 5]) < 0 := by decide

/-- C1 (amended): after replaying any event stream, `pendingRequestCount()`
equals (count of started) - (count of finished) - (count of failed) as a
plain integer, with no clamping; whenever finishes and failures do not
outnumber starts the reported count is non-negative. -/
theorem pendingCount_replay (es : List ActivityEvent) :
    pendingRequestCount (replay es)
        = (countStarted es : Int) - (countFinished es : Int) - (countFailed es : Int)
  ∧ (countFinished es + countFailed es ≤ countStarted es →
      0 ≤ pendingRequestCount (replay es)) := by
  have h := replay_pending_aux es initialMonState
  have hbase : pendingRequestCount (replay es)
      = (countStarted es : Int) - (countFinished es : Int) - (countFailed es : Int) := by
    simpa [replay, pendingRequestCount, initialMonState] using h
  refine ⟨hbase, fun hle => ?_⟩
  rw [hbase]
  omega

/-- C1 witness: a balanced stream (one start, one finish) satisfies the
hypothesis and its replayed count is non-negative. -/
theorem pendingCount_replay_witness :
    countFinished [ActivityEvent.requestStarted, ActivityEvent.requestFinished 3]
        + countFailed [ActivityEvent.requestStarted, ActivityEvent.requestFinished 3]
        ≤ countStarted [ActivityEvent.requestStarted, ActivityEvent.requestFinished 3]
  ∧ 0 ≤ pendingRequestCount
        (replay [ActivityEvent.requestStarted, ActivityEvent.requestFinished 3]) :=
  ⟨by decide, (pendingCount_replay _).2 (by decide)⟩

/-- C2 counterexample: with `idleTime = 100`, `idleLoadTime = 0`, zero
pending requests, `lastRequestActivityTime = 1000`, a DOM load observed
(`lastDomLoadedTime = 500`) and `now = 1050`, the claim's predicate (use
`idleLoadTime` whenever a DOM load was observed) is settled, but the code
(`idleTime = idleLoadTime || idleTime`, JS falsy 0) keeps `idleTime = 100`
and is not settled. -/
theorem settleTick_claim_cex :
    settleTickAsClaimed 100 0 ⟨0, 1000, 500⟩ 1050 = true
  ∧ (settleTick 100 0 ⟨0, 1000, 500⟩ 1050).1 = false := by decide

/-- C2 (amended): on each poll tick the settle predicate holds iff the
pending count is not strictly positive and `now - lastRequestActivityTime`
strictly exceeds the effective idle time, where the effective idle time is
`idleLoadTime` only when a DOM load has been observed AND `idleLoadTime`
is nonzero (JS `idleLoadTime || idleTime`), and `idleTime` otherwise;
moreover the override is written back into the `idleTime` parameter, which
persists for the rest of the call. -/
theorem settleTick_characterization (iT iLT : Nat) (s : MonState) (now : Nat) :
    ((settleTick iT iLT s now).1 = true ↔
       ¬ 0 < s.pendingRequests ∧
         (now : Int) - (s.lastRequestActivityTime : Int)
           > (if s.lastDomLoadedTime ≠ 0 ∧ iLT ≠ 0 then (iLT : Int) else (iT : Int)))
  ∧ (settleTick iT iLT s now).2
      = (if ¬ 0 < s.pendingRequests ∧ s.lastDomLoadedTime ≠ 0 ∧ iLT ≠ 0 then iLT else iT) := by
  unfold settleTick
  by_cases hp : 0 < s.pendingRequests <;>
    by_cases hd : s.lastDomLoadedTime ≠ 0 <;>
    by_cases hl : iLT ≠ 0 <;>
    simp [hp, hd, hl]

/-- C2 witness: zero pending requests, a DOM load observed, nonzero
`idleLoadTime = 7` and 100ms of quiet settle the tick, with the parameter
rewritten to 7. -/
theorem settleTick_characterization_witness :
    (settleTick 5 7 ⟨0, 0, 500⟩ 100).1 = true ∧ (settleTick 5 7 ⟨0, 0, 500⟩ 100).2 = 7 :=
  ⟨(settleTick_characterization 5 7 ⟨0, 0, 500⟩ 100).1.mpr (by decide),
   by have h := (settleTick_characterization 5 7 ⟨0, 0, 500⟩ 100).2; simpa using h⟩

lemma poll_none_elapsed {σ : Type} (timeout : Nat) (elapsed : Nat → Nat)
    (pollFn : Nat → σ → Bool × σ) :
    ∀ (fuel k₀ : Nat) (s : σ),
      pollUntilTrueOrTimeout timeout elapsed pollFn fuel k₀ s = none →
      ∀ j, k₀ ≤ j → j < k₀ + fuel → elapsed j ≤ timeout := by
  intro fuel
  induction fuel with
  | zero => intro k₀ s _ j hj1 hj2; omega
  | succ n ih =>
    intro k₀ s h j hj1 hj2
    by_cases hr : (pollFn k₀ s).1
    · simp [pollUntilTrueOrTimeout, hr] at h
    · by_cases ht : timeout < elapsed k₀
      · simp [pollUntilTrueOrTimeout, hr, ht] at h
      · rw [pollUntilTrueOrTimeout] at h
        simp only [hr, ht, if_false] at h
        rcases eq_or_lt_of_le hj1 with rfl | hlt
        · omega
        · exact ih (k₀ + 1) _ h j (by omega) (by omega)

lemma poll_some_elapsed {σ : Type} (timeout : Nat) (elapsed : Nat → Nat)
    (pollFn : Nat → σ → Bool × σ) :
    ∀ (fuel k₀ : Nat) (s : σ) (k : Nat) (s' : σ),
      pollUntilTrueOrTimeout timeout elapsed pollFn fuel k₀ s = some (k, s') →
      k₀ ≤ k ∧ k < k₀ + fuel ∧ ∀ j, k₀ ≤ j → j < k → elapsed j ≤ timeout := by
  intro fuel
  induction fuel with
  | zero => intro k₀ s k s' h; simp [pollUntilTrueOrTimeout] at h
  | succ n ih =>
    intro k₀ s k s' h
    by_cases hr : (pollFn k₀ s).1
    · rw [pollUntilTrueOrTimeout] at h
      simp only [hr, if_true] at h
      obtain ⟨hk, _⟩ := Prod.mk.injEq .. ▸ Option.some.inj h
      subst hk
      exact ⟨le_refl _, by omega, fun j hj1 hj2 => by omega⟩
    · by_cases ht : timeout < elapsed k₀
      · rw [pollUntilTrueOrTimeout] at h
        simp only [hr, ht, if_false, if_true] at h
        obtain ⟨hk, _⟩ := Prod.mk.injEq .. ▸ Option.some.inj h
        subst hk
        exact ⟨le_refl _, by omega, fun j hj1 hj2 => by omega⟩
      · rw [pollUntilTrueOrTimeout] at h
        simp only [hr, ht, if_false] at h
        obtain ⟨h1, h2, h3⟩ := ih (k₀ + 1) _ k s' h
        refine ⟨by omega, by omega, fun j hj1 hj2 => ?_⟩
        rcases eq_or_lt_of_le hj1 with rfl | hlt
        · omega
        · exact h3 j (by omega) hj2

/-- C3: whenever `waitForPendingActivity` returns — by settling or by the
ceiling — the monitor state after the call has `lastDomLoadedTime = 0`
(the source resets it before resolving), and a subsequent settle
evaluation that sees `lastDomLoadedTime = 0` uses `idleTime`, not
`idleLoadTime`: the parameter is left untouched and the verdict compares
the quiet period against `idleTime` alone. -/
theorem waitForPendingActivity_resets (iT iLT : Nat) (mon : Nat → MonState)
    (clock : Nat → Nat) (start fuel k : Nat) (s' : MonState)
    (hrun : waitForPendingActivity iT iLT mon clock start fuel = some (k, s')) :
    s'.lastDomLoadedTime = 0
  ∧ ∀ (iT' iLT' : Nat) (t : MonState) (now : Nat), t.lastDomLoadedTime = 0 →
      (settleTick iT' iLT' t now).2 = iT'
    ∧ ((settleTick iT' iLT' t now).1 = true ↔
         ¬ 0 < t.pendingRequests ∧
           (now : Int) - (t.lastRequestActivityTime : Int) > (iT' : Int)) := by
  constructor
  · unfold waitForPendingActivity at hrun
    cases hpoll : pollUntilTrueOrTimeout 30000 (fun j => clock j - start)
        (settleStep iLT mon clock) fuel 0 iT with
    | none => rw [hpoll] at hrun; exact absurd hrun (by simp)
    | some pr =>
      obtain ⟨k2, st2⟩ := pr
      rw [hpoll] at hrun
      simp only [Option.some.injEq, Prod.mk.injEq] at hrun
      obtain ⟨_, hs⟩ := hrun
      rw [← hs]
  · intro iT' iLT' t now ht
    unfold settleTick
    by_cases hp : 0 < t.pendingRequests <;> simp [hp, ht]

/-- C3 witness: a quiet monitor settles on the first tick; the state after
the call reports no pending DOM load, and an idle evaluation against it
keeps `idleTime = 9` even with `idleLoadTime = 77`. -/
theorem waitForPendingActivity_resets_witness :
    (⟨0, 0, 0⟩ : MonState).lastDomLoadedTime = 0
  ∧ (settleTick 9 77 ⟨0, 0, 0⟩ 50).2 = 9 :=
  ⟨(waitForPendingActivity_resets 0 0 monQuiet clockIdeal 0 601 0 ⟨0, 0, 0⟩ (by decide)).1,
   ((waitForPendingActivity_resets 0 0 monQuiet clockIdeal 0 601 0 ⟨0, 0, 0⟩
      (by decide)).2 9 77 ⟨0, 0, 0⟩ 50 (by decide)).1⟩

/-- C4: for every pair of idle arguments and every history of monitor
states (pending requests may never reach zero), `waitForPendingActivity`
resolves with no error: provided each 50ms tick fires at least 50ms after
the previous one, any fuel of at least 601 ticks returns a result, the
exit tick is at most 600 (the first tick whose elapsed time exceeds the
30000ms ceiling), and on the exact schedule the elapsed time at exit
overshoots the ceiling by at most one 50ms interval. -/
theorem waitForPendingActivity_terminates (iT iLT : Nat) (mon : Nat → MonState)
    (clock : Nat → Nat) (start fuel : Nat)
    (hclock : ∀ k, start + (k + 1) * 50 ≤ clock k) (hfuel : 601 ≤ fuel) :
    ∃ k s', waitForPendingActivity iT iLT mon clock start fuel = some (k, s')
      ∧ k ≤ 600
      ∧ ((∀ j, clock j = start + (j + 1) * 50) → clock k - start ≤ 30050) := by
  cases hpoll : pollUntilTrueOrTimeout 30000 (fun j => clock j - start)
      (settleStep iLT mon clock) fuel 0 iT with
  | none =>
    exfalso
    have h600 := poll_none_elapsed 30000 (fun j => clock j - start)
      (settleStep iLT mon clock) fuel 0 iT hpoll 600 (by omega) (by omega)
    have h600' : clock 600 - start ≤ 30000 := h600
    have hc := hclock 600
    omega
  | some pr =>
    obtain ⟨k, st⟩ := pr
    obtain ⟨_, _, hpre⟩ := poll_some_elapsed 30000 (fun j => clock j - start)
      (settleStep iLT mon clock) fuel 0 iT k st hpoll
    have hk600 : k ≤ 600 := by
      by_contra hgt
      have h := hpre 600 (by omega) (by omega)
      have h' : clock 600 - start ≤ 30000 := h
      have hc := hclock 600
      omega
    refine ⟨k, { mon k with lastDomLoadedTime := 0 }, ?_, hk600, ?_⟩
    · unfold waitForPendingActivity
      rw [hpoll]
    · intro hex
      rw [hex k]
      omega

/-- C4 witness: with one request pending at every tick and the ideal 50ms
schedule, the call still resolves within 601 ticks. -/
theorem waitForPendingActivity_terminates_witness :
    ∃ k s', waitForPendingActivity 0 0 monBusy clockIdeal 0 601 = some (k, s')
      ∧ k ≤ 600
      ∧ ((∀ j, clockIdeal j = 0 + (j + 1) * 50) → clockIdeal k - 0 ≤ 30050) :=
  waitForPendingActivity_terminates 0 0 monBusy clockIdeal 0 601
    (fun k => by unfold clockIdeal; omega) (by omega)

/-- C5: the post-action routine settles activity first iff an idle-time
field is nonzero, then — only when `waitAfterAction` is nonzero — performs
the fixed wait followed by a second settle (again gated on the idle-time
fields); with `waitAfterAction = 0` no second settle occurs, and with all
three fields zero no waiting occurs at all. -/
theorem waitAfter_protocol (o : NavigatorOptions) :
    (o.waitIdleTime ≠ 0 ∨ o.waitIdleLoadTime ≠ 0 →
       (o.waitAfterAction ≠ 0 →
          waitAfter o = [WaitEffect.settleActivity o.waitIdleTime o.waitIdleLoadTime,
                         WaitEffect.fixedWait o.waitAfterAction,
                         WaitEffect.settleActivity o.waitIdleTime o.waitIdleLoadTime])
     ∧ (o.waitAfterAction = 0 →
          waitAfter o = [WaitEffect.settleActivity o.waitIdleTime o.waitIdleLoadTime]))
  ∧ (o.waitIdleTime = 0 ∧ o.waitIdleLoadTime = 0 →
       (o.waitAfterAction ≠ 0 → waitAfter o = [WaitEffect.fixedWait o.waitAfterAction])
     ∧ (o.waitAfterAction = 0 → waitAfter o = [])) := by
  unfold waitAfter
  constructor
  · intro hidle
    constructor <;> intro ha <;> simp [hidle, ha]
  · rintro ⟨h1, h2⟩
    constructor <;> intro ha <;> simp [h1, h2, ha]

/-- C5 witness: `waitIdleTime = 100` and `waitAfterAction = 200` produce
settle, fixed wait, settle. -/
theorem waitAfter_protocol_witness :
    waitAfter ⟨true, true, 200, 100, 0, true⟩
      = [WaitEffect.settleActivity 100 0, WaitEffect.fixedWait 200,
         WaitEffect.settleActivity 100 0] :=
  ((waitAfter_protocol ⟨true, true, 200, 100, 0, true⟩).1 (Or.inl (by decide))).1 (by decide)

/-- C6: `click` pre-waits for the selector exactly when `waitOnSelectors`
holds and the argument is a string; it fails with element-not-found
exactly when resolution yields nothing, and then dispatches no click and
runs no post-action wait; on success it dispatches a simulated in-page
click iff `useSimulatedClicks` (a pointer click otherwise) and then runs
the post-action wait. -/
theorem click_protocol (f : FrameEnv) (o : NavigatorOptions) (sel : Sum String Handle) :
    (queryElementHandle f sel = none ↔
       (click f o sel).2 = some (NavError.elementNotFound (selText sel)))
  ∧ (queryElementHandle f sel = none →
       (∀ kind h, ActionEffect.dispatchClick kind h ∉ (click f o sel).1)
     ∧ (∀ w, ActionEffect.post w ∉ (click f o sel).1))
  ∧ ((∃ s, ActionEffect.waitForSelector s ∈ (click f o sel).1) ↔
       (o.waitOnSelectors = true ∧ ∃ s, sel = Sum.inl s))
  ∧ (∀ h, queryElementHandle f sel = some h →
       click f o sel = (clickPre o sel
         ++ [ActionEffect.dispatchClick
               (if o.useSimulatedClicks then ClickKind.simulated else ClickKind.pointer) h]
         ++ (waitAfter o).map ActionEffect.post, none)) := by
  refine ⟨?_, ?_, ?_, ?_⟩
  · cases hq : queryElementHandle f sel <;> simp [click, hq]
  · intro hq
    cases sel with
    | inl s => by_cases hw : o.waitOnSelectors <;> simp [click, hq, clickPre, hw]
    | inr h => simp [queryElementHandle] at hq
  · cases sel with
    | inl s =>
      cases hq : queryElementHandle f (Sum.inl s) with
      | none => by_cases hw : o.waitOnSelectors <;> simp [click, hq, clickPre, hw]
      | some h => by_cases hw : o.waitOnSelectors <;> simp [click, hq, clickPre, hw]
    | inr h => simp [click, queryElementHandle, clickPre]
  · intro h hq
    simp [click, hq]

/-- C6 witness: with default options and a frame lacking the selector, the
click fails with element-not-found and dispatches nothing. -/
theorem click_protocol_witness :
    (click frameMissing defaultOptions (Sum.inl "#missing")).2
        = some (NavError.elementNotFound "#missing")
  ∧ ∀ kind h, ActionEffect.dispatchClick kind h
      ∉ (click frameMissing defaultOptions (Sum.inl "#missing")).1 :=
  ⟨(click_protocol frameMissing defaultOptions (Sum.inl "#missing")).1.mp (by decide),
   ((click_protocol frameMissing defaultOptions (Sum.inl "#missing")).2.1 (by decide)).1⟩

/-- C7 counterexample: requesting `{value: "x", label: ""}` against a list
whose sole option has label `"a"` and value `"x"`: per the claim a label
was supplied, so matching should go by label and find nothing; the code
treats the empty-string label as falsy, matches by value, marks the option
selected and dispatches the change event. -/
theorem select_label_truthiness_cex :
    selectAsClaimed ⟨[⟨"a", "x", false⟩]⟩ ⟨some "x", some ""⟩ = none
  ∧ selectInPage ⟨[⟨"a", "x", false⟩]⟩ ⟨some "x", some ""⟩
      = some (⟨[⟨"a", "x", true⟩]⟩, [⟨true⟩]) := by decide

/-- C7 (amended): the in-page routine of `select` behaves exactly as the
amended claim describes: a non-empty supplied label takes precedence and
matches against the stripped option label; an empty-string or absent label
falls back to matching the stripped option value; the first matching child
is marked selected and exactly one bubbling change event is dispatched on
the list element. -/
theorem selectInPage_eq_amended (el : SelectElement) (arg : SelectOptionArg) :
    selectInPage el arg = selectAsAmended el arg := by
  cases harg : arg.label with
  | none =>
    cases hv : arg.value with
    | none => simp [selectInPage, selectAsAmended, labelTruthy, harg, hv]
    | some v => simp [selectInPage, selectAsAmended, labelTruthy, harg, hv]
  | some s =>
    by_cases hs : s = ""
    · subst hs
      cases hv : arg.value with
      | none => simp [selectInPage, selectAsAmended, labelTruthy, harg, hv]
      | some v => simp [selectInPage, selectAsAmended, labelTruthy, harg, hv]
    · simp [selectInPage, selectAsAmended, labelTruthy, harg, hs]

/-- C8: `frameNavigator` hands the child the parent's monitor and a fresh
options object whose field values copy the parent's current policy; the
references differ, creating the child leaves the parent's record
untouched, and `updateOptions` on either orchestrator leaves the other's
stored policy unchanged. -/
theorem frameNavigator_policy_copy (w : NavWorld) (parent : OrchRef) (cf : Nat)
    (hp : parent.optsRef < w.nextRef) :
    (frameNavigatorIn w parent cf).2.monitorId = parent.monitorId
  ∧ (frameNavigatorIn w parent cf).1.store (frameNavigatorIn w parent cf).2.optsRef
      = w.store parent.optsRef
  ∧ (frameNavigatorIn w parent cf).2.optsRef ≠ parent.optsRef
  ∧ (frameNavigatorIn w parent cf).1.store parent.optsRef = w.store parent.optsRef
  ∧ (∀ p, (updateOptionsIn (frameNavigatorIn w parent cf).1
        (frameNavigatorIn w parent cf).2 p).store parent.optsRef
      = (frameNavigatorIn w parent cf).1.store parent.optsRef)
  ∧ (∀ p, (updateOptionsIn (frameNavigatorIn w parent cf).1 parent p).store
        (frameNavigatorIn w parent cf).2.optsRef
      = (frameNavigatorIn w parent cf).1.store (frameNavigatorIn w parent cf).2.optsRef) := by
  have hne : parent.optsRef ≠ w.nextRef := by omega
  refine ⟨rfl, ?_, ?_, ?_, ?_, ?_⟩
  · simp [frameNavigatorIn, makePageNavigatorIn, assignOptions_fullPatch]
  · simp [frameNavigatorIn, makePageNavigatorIn]
    omega
  · simp [frameNavigatorIn, makePageNavigatorIn, hne]
  · intro p
    simp [updateOptionsIn, frameNavigatorIn, makePageNavigatorIn, hne]
  · intro p
    simp [updateOptionsIn, frameNavigatorIn, makePageNavigatorIn, hne, Ne.symm hne]

/-- C8 witness: a concrete world with one parent at reference 0; the child
copies the policy, and updating the child's `waitAfterAction` leaves the
parent's stored policy unchanged. -/
theorem frameNavigator_policy_copy_witness :
    (frameNavigatorIn worldOne parentZero 7).2.monitorId = parentZero.monitorId
  ∧ (frameNavigatorIn worldOne parentZero 7).1.store
        (frameNavigatorIn worldOne parentZero 7).2.optsRef
      = worldOne.store parentZero.optsRef
  ∧ (updateOptionsIn (frameNavigatorIn worldOne parentZero 7).1
        (frameNavigatorIn worldOne parentZero 7).2 patch500).store parentZero.optsRef
      = (frameNavigatorIn worldOne parentZero 7).1.store parentZero.optsRef := by
  have h := frameNavigator_policy_copy worldOne parentZero 7 (by decide)
  exact ⟨h.1, h.2.1, h.2.2.2.2.1 patch500⟩

/-- C9: evaluation of `queryElementHandles` at the failing input `"//div"`
on a frame whose XPath engine finds handle 1 and whose CSS engine yields
handle 2 for the same string: the source concatenates both result sets,
whereas the spec's exclusive dispatch returns the XPath matches alone. -/
theorem queryElementHandles_xpath_bug :
    queryElementHandles frameC9 "//div" = [⟨1⟩, ⟨2⟩]
  ∧ queryElementHandlesAsSpec frameC9 "//div" = [⟨1⟩]
  ∧ queryElementHandles frameC9 "//div" ≠ queryElementHandlesAsSpec frameC9 "//div" := by
  decide

/-- C10: a non-string argument passes through `queryElementHandle`
unchanged, the result does not depend on the frame environment (the driver
is not consulted), and `click` invoked with a handle never fails with
element-not-found. -/
theorem queryElementHandle_handle_identity (f g : FrameEnv) (o : NavigatorOptions)
    (h : Handle) :
    queryElementHandle f (Sum.inr h) = some h
  ∧ queryElementHandle f (Sum.inr h) = queryElementHandle g (Sum.inr h)
  ∧ (click f o (Sum.inr h)).2 = none :=
  ⟨rfl, rfl, rfl⟩

end PupNav
